import Mathlib

/-!
Shallow embedding of `src/gl-util.ts` (the `initGL` closure of gl-util).

Opaque native handles (WebGLProgram, WebGLBuffer, WebGLShader, WebGLTexture,
WebGLVertexArrayObject, WebGLUniformLocation) are modelled as natural-number
identities drawn from a fresh-id counter in the state.  Every native graphics
call the wrapper issues is recorded in an ordered call log (`GLCall`), and
`console.warn` messages are recorded in a separate warning log, so that
"issues no underlying gl call", "exactly one delete call" and "logs a
warning" are propositions about those logs.  Host-dependent behaviour
(uniform/attribute location lookup, shader compilation results) is a
parameter `GLEnv`.  Mutable closure variables `currentProgram` / `currentVao`
and the `memoized` WeakMap of `getDataRange` are fields of the state `St`.
-/

namespace GlUtil

/-- JavaScript `ToInt32`: wrap an integer to the signed 32-bit range.
`x << 2` in the source is `toInt32 (x * 4)`. -/
def toInt32 (n : Int) : Int :=
  (n + 2147483648) % 4294967296 - 2147483648

/-- `gl.ARRAY_BUFFER`. -/
def ARRAY_BUFFER : Nat := 0x8892

/-- `gl.STATIC_DRAW`. -/
def STATIC_DRAW : Nat := 0x88E4

/-- `gl.TEXTURE0`. -/
def TEXTURE0 : Nat := 0x84C0

/-- `gl.VERTEX_SHADER`. -/
def VERTEX_SHADER : Nat := 0x8B31

/-- `gl.FRAGMENT_SHADER`. -/
def FRAGMENT_SHADER : Nat := 0x8B30

/-- `TEXTURE_MAX_ANISOTROPY_EXT` constant from the source. -/
def TEXTURE_MAX_ANISOTROPY_EXT : Nat := 0x84FE

/-- `gl.TEXTURE_MAX_LOD`. -/
def TEXTURE_MAX_LOD : Nat := 0x813B

/-- `gl.TEXTURE_MIN_LOD`. -/
def TEXTURE_MIN_LOD : Nat := 0x813A

/-- The `texFloats` set: parameter names set with `texParameterf`. -/
def texFloats : List Nat := [TEXTURE_MAX_ANISOTROPY_EXT, TEXTURE_MAX_LOD, TEXTURE_MIN_LOD]

/-- A typed-array view produced by `attrib.data.subarray(begin, end)`:
a fresh allocation identity plus the bounds the view was taken with. -/
structure SubView where
  viewId : Nat
  viewBegin : Int
  viewEnd : Int
deriving DecidableEq, Repr

/-- A typed-array payload handed around as `GLBufferData`
(identity plus its `byteOffset`). -/
structure DataV where
  dataId : Nat
  byteOffset : Nat
deriving DecidableEq, Repr

/-- One native graphics call issued by the wrapper. -/
inductive GLCall where
  | useProgram (p : Nat)
  | bindVertexArray (v : Nat)
  | createProgram (p : Nat)
  | attachShader (p s : Nat)
  | linkProgram (p : Nat)
  | createShader (s ty : Nat)
  | shaderSource (s : Nat) (src : String)
  | compileShader (s : Nat)
  | deleteShader (s : Nat)
  | createBuffer (b : Nat)
  | bindBuffer (target : Nat) (b : Option Nat)
  | bindAttribLocation (p : Option Nat) (i : Int) (name : String)
  | enableVertexAttribArray (i : Int)
  | deleteBuffer (b : Nat)
  | bufferDataV (target : Nat) (data : DataV) (usage : Nat)
  | bufferSubData (target : Nat) (offset : Int) (view : SubView)
  | createTexture (t : Nat)
  | bindTexture (target t : Nat)
  | texParameterf (target pname : Nat) (v : Int)
  | texParameteri (target pname : Nat) (v : Int)
  | deleteTexture (t : Nat)
  | activeTexture (unit : Nat)
  | uniform1i (loc v : Nat)
  | createVertexArray (v : Nat)
deriving DecidableEq, Repr

/-- The `range` record of `getDataRange` / `writeAttribRange`.
The source's field `end` is spelled `endIndex` (`end` is reserved in Lean);
`getDataRange` never reads it. -/
structure Range where
  begin : Int
  endIndex : Int
  count : Int
deriving DecidableEq, Repr

/-- `const index = r.begin << 2; const begin = index`. -/
def derivedBegin (r : Range) : Int := toInt32 (r.begin * 4)

/-- `const length = r.count << 2; const end = index + length`. -/
def derivedEnd (r : Range) : Int := derivedBegin r + toInt32 (r.count * 4)

/-- `const PRIME = 31; const hash = begin * PRIME + end`. -/
def rangeHash (r : Range) : Int := derivedBegin r * 31 + derivedEnd r

/-- The buffer descriptor built by `addVertexAttribs` (type `GLBuffer`).
`dispose` is the list of native calls its disposal closure issues. -/
structure GLBuffer where
  target : Nat
  usage : Nat
  buffer : Nat
  data : Option DataV
  ptr : Nat
  dispose : List GLCall
deriving DecidableEq, Repr

/-- The texture descriptor built by `createTexture` (type `GLTexture`). -/
structure GLTexture where
  target : Nat
  uniform : Nat
  texture : Nat
  dispose : List GLCall
deriving DecidableEq, Repr

/-- Mutable state of the `initGL` closure: the fresh-handle counter, the two
tracked binding variables, the native call log, the warning log, and the
`memoized` WeakMap (keyed by buffer identity, here the descriptor's unique
underlying buffer handle). -/
structure St where
  nextId : Nat
  currentProgram : Option Nat
  currentVao : Option Nat
  calls : List GLCall
  warns : List String
  memo : List (Nat × List (Int × SubView))
deriving DecidableEq, Repr

/-- Host-dependent results of the underlying graphics context. -/
structure GLEnv where
  getUniformLocation : Option Nat → String → Option Nat
  getAttribLocation : Option Nat → String → Int
  compileOk : String → Bool
  shaderInfoLog : String → String

/-- First-match association-list lookup (models `Map.get` / `WeakMap.get`). -/
def alookup {α β : Type} [DecidableEq α] : List (α × β) → α → Option β
  | [], _ => none
  | (k, v) :: rest, k2 => if k2 = k then some v else alookup rest k2

/-- Association-list update (models `Map.set` / `WeakMap.set`): the new
binding shadows any old one under `alookup`. -/
def aset {α β : Type} [DecidableEq α] (l : List (α × β)) (k : α) (v : β) : List (α × β) :=
  (k, v) :: l

/-- `getDataRange(attrib, range)`: memoizes `attrib.data.subarray(begin, end)`
in a per-buffer map keyed by `hash = begin * 31 + end`; a fresh `SubView`
identity is allocated from the counter exactly when the lookup misses. -/
def getDataRange (attrib : GLBuffer) (r : Range) (st : St) : SubView × St :=
  let hash := rangeHash r
  let mem := (alookup st.memo attrib.buffer).getD []
  match alookup mem hash with
  | some subarray => (subarray, st)
  | none =>
    let subarray : SubView := ⟨st.nextId, derivedBegin r, derivedEnd r⟩
    (subarray,
      { st with
        nextId := st.nextId + 1
        memo := aset st.memo attrib.buffer (aset mem hash subarray) })

/-- The `using` scope-exit of `useBuffer`: `bufferDisposables` only has an
entry for `ARRAY_BUFFER`, which rebinds the target to `null`. -/
def scopeEnd (target : Nat) : List GLCall :=
  if target = ARRAY_BUFFER then [.bindBuffer target none] else []

/-- `bufferSubData({buffer, target}, data, offset = 0)`. -/
def bufferSubData (b : GLBuffer) (data : SubView) (offset : Int) (st : St) : St :=
  { st with
    calls := st.calls ++
      [.bindBuffer b.target (some b.buffer), .bufferSubData b.target offset data] ++
      scopeEnd b.target }

/-- `writeAttribRange(attrib, range)`. -/
def writeAttribRange (attrib : GLBuffer) (r : Range) (st : St) : St :=
  let p := getDataRange attrib r st
  bufferSubData attrib p.1 0 p.2

/-- `useProgram(program)`: rebinds only when the argument is not already the
tracked current program. -/
def useProgram (program : Nat) (st : St) : St :=
  if st.currentProgram = some program then st
  else { st with currentProgram := some program, calls := st.calls ++ [.useProgram program] }

/-- `useVao(vao)`: rebinds only when the argument is not already the tracked
current vertex array. -/
def useVao (vao : Nat) (st : St) : St :=
  if st.currentVao = some vao then st
  else { st with currentVao := some vao, calls := st.calls ++ [.bindVertexArray vao] }

/-- `use(webglProgram, vao)`. -/
def use (webglProgram vao : Nat) (st : St) : St :=
  useVao vao (useProgram webglProgram st)

/-- `createProgram(shaders)`: creates and links a program from the
vertex/fragment pair, then makes it current via `useProgram`. -/
def createProgram (shaders : Nat × Nat) (st : St) : Nat × St :=
  let program := st.nextId
  let st1 :=
    { st with
      nextId := st.nextId + 1
      calls := st.calls ++
        [.createProgram program, .attachShader program shaders.1,
         .attachShader program shaders.2, .linkProgram program] }
  (program, useProgram program st1)

/-- A shader source argument: a plain string or a function of the context. -/
inductive GLSource where
  | str (s : String)
  | fn (f : Unit → String)

/-- `typeof src === 'function' ? src(gl) : src`. -/
def resolveSrc : GLSource → String
  | .str s => s
  | .fn f => f ()

/-- `createShader(type, src)`: compiles the trimmed resolved source; throws
`Error(gl.getShaderInfoLog(shader))` when compilation fails. -/
def createShader (env : GLEnv) (ty : Nat) (src : GLSource) (st : St) :
    Except String Nat × St :=
  let shader := st.nextId
  let code := (resolveSrc src).trim
  let st1 :=
    { st with
      nextId := st.nextId + 1
      calls := st.calls ++
        [.createShader shader ty, .shaderSource shader code, .compileShader shader] }
  if env.compileOk code then (.ok shader, st1)
  else (.error (env.shaderInfoLog code), st1)

/-- `createShaders(src)`: a vertex shader then a fragment shader; a thrown
compile error propagates. -/
def createShaders (env : GLEnv) (vsrc fsrc : GLSource) (st : St) :
    Except String (Nat × Nat) × St :=
  match createShader env VERTEX_SHADER vsrc st with
  | (.error e, st1) => (.error e, st1)
  | (.ok vertex, st1) =>
    match createShader env FRAGMENT_SHADER fsrc st1 with
    | (.error e, st2) => (.error e, st2)
    | (.ok fragment, st2) => (.ok (vertex, fragment), st2)

/-- `deleteShaders(shaders)`. -/
def deleteShaders (shaders : Nat × Nat) (st : St) : St :=
  { st with calls := st.calls ++ [.deleteShader shaders.1, .deleteShader shaders.2] }

/-- The `uniforms` proxy getter: looks the name up in the tracked current
program; a missing location only warns (the result, `null`, is returned
as-is).  The `Except` result records that no code path throws. -/
def uniforms (env : GLEnv) (st : St) (name : String) :
    Except String (Option Nat) × St :=
  let uniform := env.getUniformLocation st.currentProgram name
  match uniform with
  | none =>
    (.ok none, { st with warns := st.warns ++ ["Uniform not found or not in use: " ++ name] })
  | some l => (.ok (some l), st)

/-- `bindVertexAttribBuffer(target, buffer, name)`: a missing attribute
location (`-1`) warns and returns `undefined` without issuing any call. -/
def bindVertexAttribBuffer (env : GLEnv) (target buffer : Nat) (name : String) (st : St) :
    Option Int × St :=
  let index := env.getAttribLocation st.currentProgram name
  if index = -1 then
    (none, { st with warns := st.warns ++ ["Attribute not found or not in use: " ++ name] })
  else
    (some index,
      { st with
        calls := st.calls ++
          [.bindBuffer target (some buffer),
           .bindAttribLocation st.currentProgram index name,
           .enableVertexAttribArray index] })

/-- An attribute-setup callback, as used by `addVertexAttrib`: given the
attribute index, target and usage it returns the (optional) payload and the
native calls it issues. -/
def AttribFn : Type := Int → Nat → Nat → Option DataV × List GLCall

/-- `addVertexAttrib(target, name, attribFn, usage)`: creates a buffer,
binds it for the scope (`using _ = useBuffer(...)`), and runs the callback
only when the attribute location was found. -/
def addVertexAttrib (env : GLEnv) (target : Nat) (name : String) (attribFn : AttribFn)
    (usage : Option Nat) (st : St) : (Nat × Option DataV) × St :=
  let buffer := st.nextId
  let st1 :=
    { st with
      nextId := st.nextId + 1
      calls := st.calls ++ [.createBuffer buffer, .bindBuffer target (some buffer)] }
  match bindVertexAttribBuffer env target buffer name st1 with
  | (none, st2) => ((buffer, none), { st2 with calls := st2.calls ++ scopeEnd target })
  | (some index, st2) =>
    let p := attribFn index target (usage.getD STATIC_DRAW)
    ((buffer, p.1), { st2 with calls := st2.calls ++ p.2 ++ scopeEnd target })

/-- One entry of the record passed to `addVertexAttribs`. -/
structure AttribSpec where
  target : Nat
  attribFn : AttribFn
  usage : Option Nat

/-- `addVertexAttribs(attribs)`: builds one `GLBuffer` descriptor per entry;
each descriptor's `dispose` closure deletes its own buffer. -/
def addVertexAttribs (env : GLEnv) :
    List (String × AttribSpec) → St → List (String × GLBuffer) × St
  | [], st => ([], st)
  | (name, spec) :: rest, st =>
    let usage := spec.usage.getD STATIC_DRAW
    let p := addVertexAttrib env spec.target name spec.attribFn (some usage) st
    let entry : GLBuffer :=
      { target := spec.target
        usage := usage
        buffer := p.1.1
        data := p.1.2
        ptr := ((p.1.2).map (·.byteOffset)).getD 0
        dispose := [.deleteBuffer p.1.1] }
    let q := addVertexAttribs env rest p.2
    ((name, entry) :: q.1, q.2)

/-- `useBuffer(target, buffer)` (the returned disposable's effect is
`scopeEnd`, appended by the callers that `using`-bind it). -/
def useBuffer (target buffer : Nat) (st : St) : St :=
  { st with calls := st.calls ++ [.bindBuffer target (some buffer)] }

/-- `useArrayBuffer(buffer)`. -/
def useArrayBuffer (buffer : Nat) (st : St) : St :=
  { st with calls := st.calls ++ [.bindBuffer ARRAY_BUFFER (some buffer)] }

/-- `createTexture(target, uniform, params)`: creates and binds a texture,
sets each parameter with `texParameterf` for the `texFloats` names and
`texParameteri` otherwise; `dispose` deletes the texture. -/
def createTexture (target uniform : Nat) (params : List (Nat × Int)) (st : St) :
    GLTexture × St :=
  let texture := st.nextId
  let st1 :=
    { st with
      nextId := st.nextId + 1
      calls := st.calls ++ [.createTexture texture, .bindTexture target texture] ++
        params.map (fun q =>
          if q.1 ∈ texFloats then .texParameterf target q.1 q.2
          else .texParameteri target q.1 q.2) }
  ({ target := target, uniform := uniform, texture := texture,
     dispose := [.deleteTexture texture] }, st1)

/-- `deleteTextures(textures)`: runs each descriptor's `dispose` in order. -/
def deleteTextures : List GLTexture → St → St
  | [], st => st
  | t :: rest, st => deleteTextures rest { st with calls := st.calls ++ t.dispose }

/-- The body of `activateTextures`' loop, from index `i`. -/
def activateTexturesFrom (i : Nat) : List GLTexture → List GLCall
  | [] => []
  | t :: rest =>
    [.activeTexture (TEXTURE0 + i), .bindTexture t.target t.texture, .uniform1i t.uniform i] ++
      activateTexturesFrom (i + 1) rest

/-- `activateTextures(textures)`. -/
def activateTextures (textures : List GLTexture) (st : St) : St :=
  { st with calls := st.calls ++ activateTexturesFrom 0 textures }

/-- `createVertexArray()`: creates and binds a vertex array object (note:
without updating the tracked `currentVao`). -/
def createVertexArray (st : St) : Nat × St :=
  let vao := st.nextId
  (vao,
    { st with
      nextId := st.nextId + 1
      calls := st.calls ++ [.createVertexArray vao, .bindVertexArray vao] })

/-- `setBuffer(buffer, data, usage)`. -/
def setBuffer (b : GLBuffer) (data : DataV) (usage : Option Nat) (st : St) : St :=
  { st with
    calls := st.calls ++
      [.bindBuffer b.target (some b.buffer), .bufferDataV b.target data (usage.getD b.usage)] }

/-- `deleteAttribs(attribs)`: runs each descriptor's `dispose` in order. -/
def deleteAttribs : List (String × GLBuffer) → St → St
  | [], st => st
  | e :: rest, st => deleteAttribs rest { st with calls := st.calls ++ e.2.dispose }

theorem alookup_aset_self {α β : Type} [DecidableEq α] (l : List (α × β)) (k : α) (v : β) :
    alookup (aset l k v) k = some v := by
  simp [alookup, aset]

theorem alookup_aset_ne {α β : Type} [DecidableEq α] (l : List (α × β)) (k k2 : α) (v : β)
    (h : k2 ≠ k) : alookup (aset l k v) k2 = alookup l k2 := by
  simp [alookup, aset, h]

theorem toInt32_small (n : Int) (h0 : 0 ≤ n) (h1 : n < 2147483648) : toInt32 n = n := by
  unfold toInt32
  omega

theorem getDataRange_found (a : GLBuffer) (r : Range) (st : St) (v : SubView)
    (h : alookup ((alookup st.memo a.buffer).getD []) (rangeHash r) = some v) :
    getDataRange a r st = (v, st) := by
  simp only [getDataRange]
  rw [h]

theorem getDataRange_memo_lookup (a : GLBuffer) (r : Range) (st : St) :
    alookup ((alookup (getDataRange a r st).2.memo a.buffer).getD []) (rangeHash r)
      = some (getDataRange a r st).1 := by
  simp only [getDataRange]
  split
  next v heq => simpa using heq
  next heq => simp [alookup_aset_self]

theorem getDataRange_memo_other (a : GLBuffer) (r : Range) (st : St) (b : Nat)
    (h : b ≠ a.buffer) :
    alookup (getDataRange a r st).2.memo b = alookup st.memo b := by
  simp only [getDataRange]
  split
  next => rfl
  next => simp [alookup_aset_ne _ _ _ _ h]

/-- C1: calling `getDataRange` (and hence `writeAttribRange`) a second time
on the same buffer with the same derived `(begin, end)` bounds returns the
identical memoized `SubView` and leaves the state unchanged (no fresh view
is allocated); the memo is keyed per buffer identity, so an interleaved call
on a different buffer does not disturb the cached view; the second
`writeAttribRange` uploads exactly the cached view. -/
theorem range_cache_reuses_view (a a2 : GLBuffer) (r r2 rx : Range) (st : St)
    (hb : derivedBegin r2 = derivedBegin r) (he : derivedEnd r2 = derivedEnd r)
    (hne : a2.buffer ≠ a.buffer) :
    (getDataRange a r2 (getDataRange a r st).2).1 = (getDataRange a r st).1 ∧
    (getDataRange a r2 (getDataRange a r st).2).2 = (getDataRange a r st).2 ∧
    (getDataRange a r2 (getDataRange a2 rx (getDataRange a r st).2).2).1
      = (getDataRange a r st).1 ∧
    (writeAttribRange a r2 (getDataRange a r st).2).calls =
      (getDataRange a r st).2.calls ++
        [.bindBuffer a.target (some a.buffer),
         .bufferSubData a.target 0 (getDataRange a r st).1] ++
        scopeEnd a.target := by
  have hh : rangeHash r2 = rangeHash r := by
    unfold rangeHash
    rw [hb, he]
  have h1 : getDataRange a r2 (getDataRange a r st).2
      = ((getDataRange a r st).1, (getDataRange a r st).2) := by
    apply getDataRange_found
    rw [hh]
    exact getDataRange_memo_lookup a r st
  have h3 : getDataRange a r2 (getDataRange a2 rx (getDataRange a r st).2).2
      = ((getDataRange a r st).1, (getDataRange a2 rx (getDataRange a r st).2).2) := by
    apply getDataRange_found
    rw [hh, getDataRange_memo_other a2 rx _ a.buffer (Ne.symm hne)]
    exact getDataRange_memo_lookup a r st
  refine ⟨by rw [h1], by rw [h1], by rw [h3], ?_⟩
  unfold writeAttribRange
  rw [h1]
  rfl

/-- C2 counterexample: the range-cache hash is not an injective function of
the derived `(begin, end)` bounds: the ranges `{begin: 0, count: 32}` and
`{begin: 1, count: 0}` have distinct derived bounds (`(0, 128)` vs `(4, 4)`)
yet both hash to `128`, and after caching the first range, `getDataRange`
for the second returns the view memoized for the first. -/
theorem rangeHash_collision_cex :
    (derivedBegin (⟨0, 128, 32⟩ : Range) ≠ derivedBegin ⟨1, 1, 0⟩ ∨
     derivedEnd (⟨0, 128, 32⟩ : Range) ≠ derivedEnd ⟨1, 1, 0⟩) ∧
    rangeHash (⟨0, 128, 32⟩ : Range) = rangeHash ⟨1, 1, 0⟩ ∧
    (getDataRange ⟨ARRAY_BUFFER, STATIC_DRAW, 1, none, 0, []⟩ ⟨1, 1, 0⟩
        (getDataRange ⟨ARRAY_BUFFER, STATIC_DRAW, 1, none, 0, []⟩ ⟨0, 128, 32⟩
          ⟨0, none, none, [], [], []⟩).2).1 =
      (getDataRange ⟨ARRAY_BUFFER, STATIC_DRAW, 1, none, 0, []⟩ ⟨0, 128, 32⟩
        ⟨0, none, none, [], [], []⟩).1 := by
  decide

/-- C2 (amended): equal derived `(begin, end)` bounds always produce the
same hash key, so a lookup for the same bounds always hits the same slot;
and the hash is injective — distinct bounds give distinct hashes — provided
both ranges have nonnegative `begin` below `2^29` and nonnegative `count`
below `32`.  (Without the `count < 32` bound, distinct bounds may collide,
see the counterexample.) -/
theorem rangeHash_exact_key_conditional (r1 r2 : Range)
    (hb1 : 0 ≤ r1.begin) (hb2 : 0 ≤ r2.begin)
    (hb1u : r1.begin < 536870912) (hb2u : r2.begin < 536870912)
    (hc1 : 0 ≤ r1.count) (hc2 : 0 ≤ r2.count)
    (hc1u : r1.count < 32) (hc2u : r2.count < 32) :
    (derivedBegin r1 = derivedBegin r2 → derivedEnd r1 = derivedEnd r2 →
      rangeHash r1 = rangeHash r2) ∧
    (rangeHash r1 = rangeHash r2 →
      derivedBegin r1 = derivedBegin r2 ∧ derivedEnd r1 = derivedEnd r2) := by
  have e1 : derivedBegin r1 = r1.begin * 4 :=
    toInt32_small _ (by omega) (by omega)
  have e2 : derivedBegin r2 = r2.begin * 4 :=
    toInt32_small _ (by omega) (by omega)
  have f1 : derivedEnd r1 = r1.begin * 4 + r1.count * 4 := by
    unfold derivedEnd
    rw [e1, toInt32_small _ (by omega) (by omega)]
  have f2 : derivedEnd r2 = r2.begin * 4 + r2.count * 4 := by
    unfold derivedEnd
    rw [e2, toInt32_small _ (by omega) (by omega)]
  constructor
  · intro h1 h2
    unfold rangeHash
    rw [h1, h2]
  · intro h
    unfold rangeHash at h
    rw [e1, e2, f1, f2] at h ⊢
    omega

/-- Witness for the amended C2 theorem at the concrete range
`{begin: 3, count: 5}`. -/
theorem rangeHash_exact_key_conditional_witness :
    ((0 : Int) ≤ 3 ∧ (3 : Int) < 536870912 ∧ (0 : Int) ≤ 5 ∧ (5 : Int) < 32) ∧
    (derivedBegin (⟨3, 0, 5⟩ : Range) = derivedBegin ⟨3, 0, 5⟩ ∧
     derivedEnd (⟨3, 0, 5⟩ : Range) = derivedEnd ⟨3, 0, 5⟩) :=
  ⟨by decide,
   (rangeHash_exact_key_conditional ⟨3, 0, 5⟩ ⟨3, 0, 5⟩ (by decide) (by decide)
     (by decide) (by decide) (by decide) (by decide) (by decide) (by decide)).2 rfl⟩

/-- Witness for C1 at concrete buffers `1` and `2` and the concrete range
`{begin: 0, end: 4, count: 1}`. -/
theorem range_cache_reuses_view_witness :
    (derivedBegin (⟨0, 4, 1⟩ : Range) = derivedBegin ⟨0, 4, 1⟩ ∧
     derivedEnd (⟨0, 4, 1⟩ : Range) = derivedEnd ⟨0, 4, 1⟩ ∧
     (⟨ARRAY_BUFFER, STATIC_DRAW, 2, none, 0, []⟩ : GLBuffer).buffer ≠
       (⟨ARRAY_BUFFER, STATIC_DRAW, 1, none, 0, []⟩ : GLBuffer).buffer) ∧
    ((getDataRange ⟨ARRAY_BUFFER, STATIC_DRAW, 1, none, 0, []⟩ ⟨0, 4, 1⟩
        (getDataRange ⟨ARRAY_BUFFER, STATIC_DRAW, 1, none, 0, []⟩ ⟨0, 4, 1⟩
          ⟨10, none, none, [], [], []⟩).2).1 =
      (getDataRange ⟨ARRAY_BUFFER, STATIC_DRAW, 1, none, 0, []⟩ ⟨0, 4, 1⟩
        ⟨10, none, none, [], [], []⟩).1 ∧
     (getDataRange ⟨ARRAY_BUFFER, STATIC_DRAW, 1, none, 0, []⟩ ⟨0, 4, 1⟩
        (getDataRange ⟨ARRAY_BUFFER, STATIC_DRAW, 1, none, 0, []⟩ ⟨0, 4, 1⟩
          ⟨10, none, none, [], [], []⟩).2).2 =
      (getDataRange ⟨ARRAY_BUFFER, STATIC_DRAW, 1, none, 0, []⟩ ⟨0, 4, 1⟩
        ⟨10, none, none, [], [], []⟩).2 ∧
     (getDataRange ⟨ARRAY_BUFFER, STATIC_DRAW, 1, none, 0, []⟩ ⟨0, 4, 1⟩
        (getDataRange ⟨ARRAY_BUFFER, STATIC_DRAW, 2, none, 0, []⟩ ⟨1, 5, 1⟩
          (getDataRange ⟨ARRAY_BUFFER, STATIC_DRAW, 1, none, 0, []⟩ ⟨0, 4, 1⟩
            ⟨10, none, none, [], [], []⟩).2).2).1 =
      (getDataRange ⟨ARRAY_BUFFER, STATIC_DRAW, 1, none, 0, []⟩ ⟨0, 4, 1⟩
        ⟨10, none, none, [], [], []⟩).1 ∧
     (writeAttribRange ⟨ARRAY_BUFFER, STATIC_DRAW, 1, none, 0, []⟩ ⟨0, 4, 1⟩
        (getDataRange ⟨ARRAY_BUFFER, STATIC_DRAW, 1, none, 0, []⟩ ⟨0, 4, 1⟩
          ⟨10, none, none, [], [], []⟩).2).calls =
      (getDataRange ⟨ARRAY_BUFFER, STATIC_DRAW, 1, none, 0, []⟩ ⟨0, 4, 1⟩
        ⟨10, none, none, [], [], []⟩).2.calls ++
        [.bindBuffer (⟨ARRAY_BUFFER, STATIC_DRAW, 1, none, 0, []⟩ : GLBuffer).target
          (some (⟨ARRAY_BUFFER, STATIC_DRAW, 1, none, 0, []⟩ : GLBuffer).buffer),
         .bufferSubData (⟨ARRAY_BUFFER, STATIC_DRAW, 1, none, 0, []⟩ : GLBuffer).target 0
          (getDataRange ⟨ARRAY_BUFFER, STATIC_DRAW, 1, none, 0, []⟩ ⟨0, 4, 1⟩
            ⟨10, none, none, [], [], []⟩).1] ++
        scopeEnd (⟨ARRAY_BUFFER, STATIC_DRAW, 1, none, 0, []⟩ : GLBuffer).target) :=
  ⟨⟨rfl, rfl, by decide⟩,
   range_cache_reuses_view ⟨ARRAY_BUFFER, STATIC_DRAW, 1, none, 0, []⟩
     ⟨ARRAY_BUFFER, STATIC_DRAW, 2, none, 0, []⟩ ⟨0, 4, 1⟩ ⟨0, 4, 1⟩ ⟨1, 5, 1⟩
     ⟨10, none, none, [], [], []⟩ rfl rfl (by decide)⟩

/-- C3: the `uniforms` proxy getter never throws: its result is always
`Except.ok` of the looked-up location; a name with no location in the
tracked current program yields the null (`none`) location with a warning
appended, and a name with a location yields that location with no state
change (no warning). -/
theorem uniforms_missing_warns_not_throws (env : GLEnv) (st : St) (name : String) :
    ((uniforms env st name).1 = .ok (env.getUniformLocation st.currentProgram name)) ∧
    (env.getUniformLocation st.currentProgram name = none →
      (uniforms env st name).2 =
        { st with warns := st.warns ++ ["Uniform not found or not in use: " ++ name] }) ∧
    (∀ l, env.getUniformLocation st.currentProgram name = some l →
      (uniforms env st name).1 = .ok (some l) ∧ (uniforms env st name).2 = st) := by
  unfold uniforms
  cases h : env.getUniformLocation st.currentProgram name <;> simp [h]

/-- Witness for C3: with a host where lookup fails the getter returns
`ok none` and warns; with a host where "u" is at location 7 it returns
`ok (some 7)` and changes nothing. -/
theorem uniforms_missing_warns_not_throws_witness :
    ((⟨fun _ _ => none, fun _ _ => -1, fun _ => true, fun _ => ""⟩ : GLEnv).getUniformLocation
        (⟨0, none, none, [], [], []⟩ : St).currentProgram "u" = none ∧
     (uniforms ⟨fun _ _ => none, fun _ _ => -1, fun _ => true, fun _ => ""⟩
        ⟨0, none, none, [], [], []⟩ "u").2 =
       { (⟨0, none, none, [], [], []⟩ : St) with
         warns := (⟨0, none, none, [], [], []⟩ : St).warns ++
           ["Uniform not found or not in use: " ++ "u"] }) ∧
    ((⟨fun _ _ => some 7, fun _ _ => -1, fun _ => true, fun _ => ""⟩ : GLEnv).getUniformLocation
        (⟨0, none, none, [], [], []⟩ : St).currentProgram "u" = some 7 ∧
     (uniforms ⟨fun _ _ => some 7, fun _ _ => -1, fun _ => true, fun _ => ""⟩
        ⟨0, none, none, [], [], []⟩ "u").1 = .ok (some 7) ∧
     (uniforms ⟨fun _ _ => some 7, fun _ _ => -1, fun _ => true, fun _ => ""⟩
        ⟨0, none, none, [], [], []⟩ "u").2 = ⟨0, none, none, [], [], []⟩) :=
  ⟨⟨rfl, (uniforms_missing_warns_not_throws _ _ _).2.1 rfl⟩,
   ⟨rfl, ((uniforms_missing_warns_not_throws _ _ _).2.2 7 rfl).1,
    ((uniforms_missing_warns_not_throws _ ⟨0, none, none, [], [], []⟩ "u").2.2 7 rfl).2⟩⟩

/-- C4: when the (trimmed, resolved) source fails to compile, `createShader`
throws `Error(gl.getShaderInfoLog(shader))`, and `createShaders` propagates
it; when the source compiles, `createShader` returns the freshly created
shader handle, and `createShaders` returns the vertex and fragment pair. -/
theorem createShader_error_and_success (env : GLEnv) (ty : Nat) (src vsrc fsrc : GLSource)
    (st : St) :
    (env.compileOk ((resolveSrc src).trim) = false →
      (createShader env ty src st).1 = .error (env.shaderInfoLog ((resolveSrc src).trim))) ∧
    (env.compileOk ((resolveSrc src).trim) = true →
      (createShader env ty src st).1 = .ok st.nextId) ∧
    (env.compileOk ((resolveSrc vsrc).trim) = false →
      (createShaders env vsrc fsrc st).1 =
        .error (env.shaderInfoLog ((resolveSrc vsrc).trim))) ∧
    (env.compileOk ((resolveSrc vsrc).trim) = true →
      env.compileOk ((resolveSrc fsrc).trim) = true →
      (createShaders env vsrc fsrc st).1 = .ok (st.nextId, st.nextId + 1)) := by
  refine ⟨fun h => ?_, fun h => ?_, fun h => ?_, fun h h2 => ?_⟩
  · simp [createShader, h]
  · simp [createShader, h]
  · simp [createShaders, createShader, h]
  · simp [createShaders, createShader, h, h2]

/-- Witness for C4: a host rejecting everything makes `createShader` throw
the info log; a host accepting everything makes `createShaders` return the
handle pair `(0, 1)`. -/
theorem createShader_error_and_success_witness :
    ((⟨fun _ _ => none, fun _ _ => 0, fun _ => false, fun _ => "log"⟩ : GLEnv).compileOk
        ((resolveSrc (.str "bad")).trim) = false ∧
     (createShader ⟨fun _ _ => none, fun _ _ => 0, fun _ => false, fun _ => "log"⟩
        VERTEX_SHADER (.str "bad") ⟨0, none, none, [], [], []⟩).1 =
       .error ((⟨fun _ _ => none, fun _ _ => 0, fun _ => false, fun _ => "log"⟩ : GLEnv).shaderInfoLog
         ((resolveSrc (.str "bad")).trim))) ∧
    ((⟨fun _ _ => none, fun _ _ => 0, fun _ => true, fun _ => "log"⟩ : GLEnv).compileOk
        ((resolveSrc (.str "ok")).trim) = true ∧
     (createShaders ⟨fun _ _ => none, fun _ _ => 0, fun _ => true, fun _ => "log"⟩
        (.str "ok") (.str "ok2") ⟨0, none, none, [], [], []⟩).1 = .ok (0, 1)) :=
  ⟨⟨rfl, (createShader_error_and_success _ VERTEX_SHADER (.str "bad") (.str "bad")
      (.str "bad") ⟨0, none, none, [], [], []⟩).1 rfl⟩,
   ⟨rfl, (createShader_error_and_success _ VERTEX_SHADER (.str "ok") (.str "ok")
      (.str "ok2") ⟨0, none, none, [], [], []⟩).2.2.2 rfl rfl⟩⟩

/-- C8: `useProgram` and `useVao` are idempotent at the native level: with
the already-current argument they issue no underlying gl call and leave the
whole state unchanged; with a different argument they issue exactly one
bind call and update the tracked variable to the argument. -/
theorem useProgram_useVao_idempotent (p v : Nat) (st : St) :
    (st.currentProgram = some p → useProgram p st = st) ∧
    (st.currentProgram ≠ some p →
      useProgram p st =
        { st with currentProgram := some p, calls := st.calls ++ [.useProgram p] }) ∧
    (st.currentVao = some v → useVao v st = st) ∧
    (st.currentVao ≠ some v →
      useVao v st =
        { st with currentVao := some v, calls := st.calls ++ [.bindVertexArray v] }) := by
  refine ⟨fun h => ?_, fun h => ?_, fun h => ?_, fun h => ?_⟩ <;> simp [useProgram, useVao, h]

/-- Witness for C8: rebinding program 5 when 5 is current is a no-op;
binding vertex array 8 when 7 is current issues one `bindVertexArray`. -/
theorem useProgram_useVao_idempotent_witness :
    ((⟨0, some 5, some 7, [], [], []⟩ : St).currentProgram = some 5 ∧
     useProgram 5 ⟨0, some 5, some 7, [], [], []⟩ = ⟨0, some 5, some 7, [], [], []⟩) ∧
    ((⟨0, some 5, some 7, [], [], []⟩ : St).currentVao ≠ some 8 ∧
     useVao 8 ⟨0, some 5, some 7, [], [], []⟩ =
       { (⟨0, some 5, some 7, [], [], []⟩ : St) with
         currentVao := some 8
         calls := (⟨0, some 5, some 7, [], [], []⟩ : St).calls ++ [.bindVertexArray 8] }) :=
  ⟨⟨rfl, (useProgram_useVao_idempotent 5 8 ⟨0, some 5, some 7, [], [], []⟩).1 rfl⟩,
   ⟨by decide, (useProgram_useVao_idempotent 5 8 ⟨0, some 5, some 7, [], [], []⟩).2.2.2
      (by decide)⟩⟩

/-- C9: `createShader` hands the compiler the resolved source (invoking it
when it is a function) with surrounding whitespace trimmed: the
`shaderSource` call carries exactly `(resolveSrc src).trim`, so two sources
with the same trimmed resolution compile identically. -/
theorem createShader_trims_source (env : GLEnv) (ty : Nat) (src s1 s2 : GLSource) (st : St) :
    ((createShader env ty src st).2.calls = st.calls ++
      [.createShader st.nextId ty, .shaderSource st.nextId ((resolveSrc src).trim),
       .compileShader st.nextId]) ∧
    ((resolveSrc s1).trim = (resolveSrc s2).trim →
      createShader env ty s1 st = createShader env ty s2 st) := by
  constructor
  · simp only [createShader]
    split <;> rfl
  · intro h
    unfold createShader
    rw [h]

/-- Witness for C9: the plain string `"  void main  "` and a source
function producing the same text resolve to the same trimmed source and
yield identical `createShader` results. -/
theorem createShader_trims_source_witness :
    ((resolveSrc (.str "  void main  ")).trim =
      (resolveSrc (.fn (fun _ => "  void main  "))).trim) ∧
    createShader ⟨fun _ _ => none, fun _ _ => 0, fun _ => true, fun _ => ""⟩ VERTEX_SHADER
        (.str "  void main  ") ⟨0, none, none, [], [], []⟩ =
      createShader ⟨fun _ _ => none, fun _ _ => 0, fun _ => true, fun _ => ""⟩ VERTEX_SHADER
        (.fn (fun _ => "  void main  ")) ⟨0, none, none, [], [], []⟩ :=
  ⟨rfl,
   (createShader_trims_source ⟨fun _ _ => none, fun _ _ => 0, fun _ => true, fun _ => ""⟩
      VERTEX_SHADER (.str "  void main  ") (.str "  void main  ")
      (.fn (fun _ => "  void main  ")) ⟨0, none, none, [], [], []⟩).2 rfl⟩

theorem deleteAttribs_calls (bufs : List (String × GLBuffer)) :
    ∀ st : St,
      deleteAttribs bufs st =
        { st with calls := st.calls ++ (bufs.map (fun e => e.2.dispose)).flatten } := by
  induction bufs with
  | nil => intro st; simp [deleteAttribs]
  | cons e rest ih =>
    intro st
    simp [deleteAttribs, ih]

theorem deleteTextures_calls (ts : List GLTexture) :
    ∀ st : St,
      deleteTextures ts st =
        { st with calls := st.calls ++ (ts.map (fun t => t.dispose)).flatten } := by
  induction ts with
  | nil => intro st; simp [deleteTextures]
  | cons t rest ih =>
    intro st
    simp [deleteTextures, ih]

theorem addVertexAttribs_dispose_all (env : GLEnv) (specs : List (String × AttribSpec)) :
    ∀ st : St,
      ((addVertexAttribs env specs st).1).all
        (fun e => decide (e.2.dispose = [GLCall.deleteBuffer e.2.buffer])) = true := by
  induction specs with
  | nil => intro st; rfl
  | cons e rest ih =>
    intro st
    obtain ⟨name, spec⟩ := e
    simp only [addVertexAttribs, List.all_cons, Bool.and_eq_true, decide_eq_true_eq]
    exact ⟨trivial, ih _⟩

/-- C5: each buffer descriptor built by `addVertexAttribs` has a `dispose`
that issues exactly the single `deleteBuffer` of its own handle; the
texture descriptor of `createTexture` likewise issues exactly the single
`deleteTexture` of its handle; and `deleteAttribs` / `deleteTextures`
append exactly each descriptor's `dispose` once, in order. -/
theorem dispose_releases_once (env : GLEnv) (specs : List (String × AttribSpec))
    (target uniform : Nat) (params : List (Nat × Int))
    (bufs : List (String × GLBuffer)) (ts : List GLTexture) (st st2 st3 st4 : St) :
    ((addVertexAttribs env specs st).1).all
      (fun e => decide (e.2.dispose = [GLCall.deleteBuffer e.2.buffer])) = true ∧
    (createTexture target uniform params st2).1.dispose =
      [GLCall.deleteTexture (createTexture target uniform params st2).1.texture] ∧
    deleteAttribs bufs st3 =
      { st3 with calls := st3.calls ++ (bufs.map (fun e => e.2.dispose)).flatten } ∧
    deleteTextures ts st4 =
      { st4 with calls := st4.calls ++ (ts.map (fun t => t.dispose)).flatten } :=
  ⟨addVertexAttribs_dispose_all env specs st, rfl, deleteAttribs_calls bufs st3,
   deleteTextures_calls ts st4⟩

/-- C6: when the attribute name has no location in the current program
(lookup yields `-1`), `bindVertexAttribBuffer` only appends a warning — it
returns `undefined` having issued no bind/enable call — and
`addVertexAttrib` returns the created buffer with no data, its result
independent of the attribute-setup callback (the callback is skipped). -/
theorem missing_attrib_skipped (env : GLEnv) (target buffer : Nat) (name : String)
    (f g : AttribFn) (usage : Option Nat) (st : St)
    (h : env.getAttribLocation st.currentProgram name = -1) :
    bindVertexAttribBuffer env target buffer name st =
      (none, { st with warns := st.warns ++ ["Attribute not found or not in use: " ++ name] }) ∧
    (addVertexAttrib env target name f usage st).1 = (st.nextId, none) ∧
    addVertexAttrib env target name f usage st = addVertexAttrib env target name g usage st := by
  refine ⟨?_, ?_, ?_⟩
  · simp [bindVertexAttribBuffer, h]
  · simp [addVertexAttrib, bindVertexAttribBuffer, h]
  · simp [addVertexAttrib, bindVertexAttribBuffer, h]

/-- Witness for C6: a host that reports every attribute missing. -/
theorem missing_attrib_skipped_witness :
    ((⟨fun _ _ => none, fun _ _ => -1, fun _ => true, fun _ => ""⟩ : GLEnv).getAttribLocation
        (⟨3, none, none, [], [], []⟩ : St).currentProgram "pos" = -1) ∧
    (bindVertexAttribBuffer ⟨fun _ _ => none, fun _ _ => -1, fun _ => true, fun _ => ""⟩
        ARRAY_BUFFER 9 "pos" ⟨3, none, none, [], [], []⟩ =
      (none, { (⟨3, none, none, [], [], []⟩ : St) with
               warns := (⟨3, none, none, [], [], []⟩ : St).warns ++
                 ["Attribute not found or not in use: " ++ "pos"] }) ∧
     (addVertexAttrib ⟨fun _ _ => none, fun _ _ => -1, fun _ => true, fun _ => ""⟩
        ARRAY_BUFFER "pos" (fun _ _ _ => (none, [])) none ⟨3, none, none, [], [], []⟩).1 =
       ((⟨3, none, none, [], [], []⟩ : St).nextId, none) ∧
     addVertexAttrib ⟨fun _ _ => none, fun _ _ => -1, fun _ => true, fun _ => ""⟩
        ARRAY_BUFFER "pos" (fun _ _ _ => (none, [])) none ⟨3, none, none, [], [], []⟩ =
       addVertexAttrib ⟨fun _ _ => none, fun _ _ => -1, fun _ => true, fun _ => ""⟩
        ARRAY_BUFFER "pos" (fun _ _ _ => (some ⟨0, 0⟩, [.linkProgram 0])) none
        ⟨3, none, none, [], [], []⟩) :=
  ⟨rfl,
   missing_attrib_skipped ⟨fun _ _ => none, fun _ _ => -1, fun _ => true, fun _ => ""⟩
     ARRAY_BUFFER 9 "pos" (fun _ _ _ => (none, []))
     (fun _ _ _ => (some ⟨0, 0⟩, [.linkProgram 0])) none ⟨3, none, none, [], [], []⟩ rfl⟩

/-- The two tracked binding variables of `initGL` are unchanged from
`stIn` to `stOut`. -/
def keepsBindings (stOut stIn : St) : Prop :=
  stOut.currentProgram = stIn.currentProgram ∧ stOut.currentVao = stIn.currentVao

theorem keepsBindings_trans {s3 s2 s1 : St} (h32 : keepsBindings s3 s2)
    (h21 : keepsBindings s2 s1) : keepsBindings s3 s1 :=
  ⟨h32.1.trans h21.1, h32.2.trans h21.2⟩

theorem bindVertexAttribBuffer_keeps (env : GLEnv) (target buffer : Nat) (name : String)
    (st : St) : keepsBindings (bindVertexAttribBuffer env target buffer name st).2 st := by
  simp only [bindVertexAttribBuffer]
  split <;> exact ⟨rfl, rfl⟩

theorem addVertexAttrib_keeps (env : GLEnv) (target : Nat) (name : String) (f : AttribFn)
    (usage : Option Nat) (st : St) :
    keepsBindings (addVertexAttrib env target name f usage st).2 st := by
  simp only [addVertexAttrib]
  split
  next st2 heq =>
    have h2 := bindVertexAttribBuffer_keeps env target st.nextId name
      { st with
        nextId := st.nextId + 1
        calls := st.calls ++ [.createBuffer st.nextId, .bindBuffer target (some st.nextId)] }
    rw [heq] at h2
    exact ⟨h2.1, h2.2⟩
  next index st2 heq =>
    have h2 := bindVertexAttribBuffer_keeps env target st.nextId name
      { st with
        nextId := st.nextId + 1
        calls := st.calls ++ [.createBuffer st.nextId, .bindBuffer target (some st.nextId)] }
    rw [heq] at h2
    exact ⟨h2.1, h2.2⟩

theorem addVertexAttribs_keeps (env : GLEnv) (specs : List (String × AttribSpec)) :
    ∀ st : St, keepsBindings (addVertexAttribs env specs st).2 st := by
  induction specs with
  | nil => intro st; exact ⟨rfl, rfl⟩
  | cons e rest ih =>
    intro st
    obtain ⟨name, spec⟩ := e
    exact keepsBindings_trans (ih _)
      (addVertexAttrib_keeps env spec.target name spec.attribFn
        (some (spec.usage.getD STATIC_DRAW)) st)

theorem createShader_keeps (env : GLEnv) (ty : Nat) (src : GLSource) (st : St) :
    keepsBindings (createShader env ty src st).2 st := by
  simp only [createShader]
  split <;> exact ⟨rfl, rfl⟩

theorem createShaders_keeps (env : GLEnv) (vsrc fsrc : GLSource) (st : St) :
    keepsBindings (createShaders env vsrc fsrc st).2 st := by
  unfold createShaders
  split
  next e st1 heq =>
    have h1 := createShader_keeps env VERTEX_SHADER vsrc st
    rw [heq] at h1
    exact h1
  next vertex st1 heq =>
    have h1 := createShader_keeps env VERTEX_SHADER vsrc st
    rw [heq] at h1
    split
    next e st2 heq2 =>
      have h2 := createShader_keeps env FRAGMENT_SHADER fsrc st1
      rw [heq2] at h2
      exact keepsBindings_trans h2 h1
    next fragment st2 heq2 =>
      have h2 := createShader_keeps env FRAGMENT_SHADER fsrc st1
      rw [heq2] at h2
      exact keepsBindings_trans h2 h1

theorem getDataRange_keeps (a : GLBuffer) (r : Range) (st : St) :
    keepsBindings (getDataRange a r st).2 st := by
  simp only [getDataRange]
  split <;> exact ⟨rfl, rfl⟩

theorem uniforms_keeps (env : GLEnv) (st : St) (name : String) :
    keepsBindings (uniforms env st name).2 st := by
  simp only [uniforms]
  split <;> exact ⟨rfl, rfl⟩

theorem deleteAttribs_keeps (bufs : List (String × GLBuffer)) (st : St) :
    keepsBindings (deleteAttribs bufs st) st := by
  rw [deleteAttribs_calls]
  exact ⟨rfl, rfl⟩

theorem deleteTextures_keeps (ts : List GLTexture) (st : St) :
    keepsBindings (deleteTextures ts st) st := by
  rw [deleteTextures_calls]
  exact ⟨rfl, rfl⟩

theorem writeAttribRange_keeps (a : GLBuffer) (r : Range) (st : St) :
    keepsBindings (writeAttribRange a r st) st := by
  simp only [writeAttribRange]
  exact keepsBindings_trans ⟨rfl, rfl⟩ (getDataRange_keeps a r st)

/-- C7: the tracked `currentProgram` / `currentVao` variables are left
unchanged by every exported stateful operation other than the binding
functions (`useProgram`, `useVao`, `use`, and `createProgram` via
`useProgram`): shader creation and deletion, the uniforms getter, attribute
buffer setup, buffer binding and upload, texture creation, activation and
deletion, vertex-array creation (which binds natively but does not update
the tracked variable), the range cache, and disposal helpers. -/
theorem bindings_mutated_only_by_use (env : GLEnv) (st : St) (ty : Nat)
    (src vsrc fsrc : GLSource) (name : String) (target buffer uniform : Nat)
    (f : AttribFn) (usage : Option Nat) (specs : List (String × AttribSpec))
    (params : List (Nat × Int)) (ts : List GLTexture) (b : GLBuffer) (dv : DataV)
    (sv : SubView) (off : Int) (r : Range) (bufs : List (String × GLBuffer))
    (sh : Nat × Nat) :
    keepsBindings (createShader env ty src st).2 st ∧
    keepsBindings (createShaders env vsrc fsrc st).2 st ∧
    keepsBindings (deleteShaders sh st) st ∧
    keepsBindings (uniforms env st name).2 st ∧
    keepsBindings (bindVertexAttribBuffer env target buffer name st).2 st ∧
    keepsBindings (addVertexAttrib env target name f usage st).2 st ∧
    keepsBindings (addVertexAttribs env specs st).2 st ∧
    keepsBindings (useBuffer target buffer st) st ∧
    keepsBindings (useArrayBuffer buffer st) st ∧
    keepsBindings (createTexture target uniform params st).2 st ∧
    keepsBindings (deleteTextures ts st) st ∧
    keepsBindings (activateTextures ts st) st ∧
    keepsBindings (createVertexArray st).2 st ∧
    keepsBindings (setBuffer b dv usage st) st ∧
    keepsBindings (deleteAttribs bufs st) st ∧
    keepsBindings (bufferSubData b sv off st) st ∧
    keepsBindings (getDataRange b r st).2 st ∧
    keepsBindings (writeAttribRange b r st) st :=
  ⟨createShader_keeps env ty src st, createShaders_keeps env vsrc fsrc st, ⟨rfl, rfl⟩,
   uniforms_keeps env st name, bindVertexAttribBuffer_keeps env target buffer name st,
   addVertexAttrib_keeps env target name f usage st, addVertexAttribs_keeps env specs st,
   ⟨rfl, rfl⟩, ⟨rfl, rfl⟩, ⟨rfl, rfl⟩, deleteTextures_keeps ts st, ⟨rfl, rfl⟩, ⟨rfl, rfl⟩,
   ⟨rfl, rfl⟩, deleteAttribs_keeps bufs st, ⟨rfl, rfl⟩, getDataRange_keeps b r st,
   writeAttribRange_keeps b r st⟩

theorem activateTexturesFrom_eq (ts : List GLTexture) :
    ∀ i : Nat,
      activateTexturesFrom i ts =
        (ts.mapIdx (fun j t =>
          [GLCall.activeTexture (TEXTURE0 + (i + j)), GLCall.bindTexture t.target t.texture,
           GLCall.uniform1i t.uniform (i + j)])).flatten := by
  induction ts with
  | nil => intro i; rfl
  | cons t rest ih =>
    intro i
    have hfn :
        (fun j (u : GLTexture) =>
          [GLCall.activeTexture (TEXTURE0 + (i + (j + 1))),
           GLCall.bindTexture u.target u.texture,
           GLCall.uniform1i u.uniform (i + (j + 1))]) =
        (fun j (u : GLTexture) =>
          [GLCall.activeTexture (TEXTURE0 + ((i + 1) + j)),
           GLCall.bindTexture u.target u.texture,
           GLCall.uniform1i u.uniform ((i + 1) + j)]) := by
      funext j u
      have hj : i + (j + 1) = (i + 1) + j := by omega
      rw [hj]
    simp only [activateTexturesFrom, List.mapIdx_cons, List.flatten_cons, ih (i + 1),
      Nat.add_zero, hfn]

/-- C10: `activateTextures` walks the list in order and, for the texture at
index `i`, issues exactly `activeTexture(TEXTURE0 + i)`, a `bindTexture` of
that texture to its own target, and `uniform1i(uniform, i)`. -/
theorem activateTextures_in_order (ts : List GLTexture) (st : St) :
    (activateTextures ts st).calls = st.calls ++
      (ts.mapIdx (fun i t =>
        [GLCall.activeTexture (TEXTURE0 + i), GLCall.bindTexture t.target t.texture,
         GLCall.uniform1i t.uniform i])).flatten := by
  have h := activateTexturesFrom_eq ts 0
  simp only [Nat.zero_add] at h
  show st.calls ++ activateTexturesFrom 0 ts = _
  rw [h]

end GlUtil
